import Mathlib

/-!
Shallow embedding of the permit lifecycle engine of `permitpro-pms`.

Embedded handlers (each is a pure function from a database state and a
request to a response and the successor state):

* `StatusRoute.POST`        — `POST /api/permits/[id]/status`
* `PermitRoute.PATCH`       — `PATCH /api/permits/[id]`
* `TasksRoute.PATCH`        — `PATCH /api/tasks/[id]`
* `DocumentsRoute.POST`     — `POST /api/permits/[id]/documents`
* `DocumentVerifyRoute.POST`— `POST /api/documents/[id]/verify`
* `LocalStorageAdapter`     — the local file-system storage collaborator

Conventions of the embedding:

* Tables are lists of rows in creation order (Prisma `create` appends).
  `createdAt` / `updatedAt` / `uploadedAt` / `checksum` columns are omitted:
  the modelled logic never reads them, list order stands in for the
  creation timestamps.
* String-valued enum columns stay strings, as in the source; the zod enum
  lists are carried over verbatim and validation is list membership.
* A collaborator call that can fail (the `activityLog.create` insert in the
  status route, `storage.save` in the upload route) takes its outcome as an
  explicit argument.  A failed call makes the handler take its `catch`
  path: a 500 response, with everything already awaited left committed and
  nothing later executed — the handlers contain no transaction.
* Generated identifiers (Prisma cuid, `randomBytes(16).toString("hex")`,
  upload-time timestamps) are supplied by the caller or drawn from a
  counter in the state; their actual values are opaque to the logic.
* JavaScript truthiness on optional strings (`""`, `null` and `undefined`
  are falsy) is modelled by `jsTruthy` / `jsOr` / `jsOrStr`.
-/

namespace PermitPro

/-! ### Validation enums (`src/lib/validations.ts`) -/

def permitStatusEnum : List String :=
  ["New", "Submitted", "InReview", "RevisionsNeeded", "Approved",
   "Issued", "Inspections", "FinaledClosed", "Canceled"]

def internalStageEnum : List String :=
  ["WaitingOnContractorDocs", "WaitingOnCounty", "WaitingOnBilling",
   "ReadyToSubmit", "ReadyToClose", "InProgress"]

def billingStatusEnum : List String :=
  ["NotSent", "SentToBilling", "Billed", "Paid"]

def taskStatusEnum : List String :=
  ["NotStarted", "InProgress", "Waiting", "Completed"]

def priorityEnum : List String :=
  ["low", "medium", "high"]

def documentCategoryEnum : List String :=
  ["Application", "Plans", "Specifications", "Engineering", "Photos",
   "Correspondence", "Inspection", "Certificate", "Other"]

def documentStatusEnum : List String :=
  ["Pending", "Verified", "Rejected"]

/-! ### JavaScript string truthiness helpers -/

/-- JS truthiness of an optional string: `null`/`undefined`/`""` are falsy. -/
def jsTruthy : Option String → Option String
  | none => none
  | some s => if s = "" then none else some s

/-- JS `a || b` where `a` is a nullable string column and `b` a string. -/
def jsOrStr : Option String → String → String
  | none, b => b
  | some s, b => if s = "" then b else s

/-- JS `a || b` for two nullable strings. -/
def jsOr : Option String → Option String → Option String
  | none, b => b
  | some s, b => if s = "" then b else some s

/-! ### Rows (columns from `prisma/migrations` DDL that the engine reads or writes) -/

structure PermitPackage where
  id : String
  customerId : String
  contractorId : String
  projectName : String
  projectAddress : String
  permitType : String
  status : String
  internalStage : Option String
  permitNumber : Option String
  targetIssueDate : Option String
  billingStatus : String
  billingNotes : Option String
deriving DecidableEq

structure Task where
  id : String
  permitPackageId : String
  name : String
  description : Option String
  status : String
  assignedTo : Option String
  dueDate : Option String
  completedAt : Option Nat
  priority : Option String
deriving DecidableEq

structure PermitDocument where
  id : String
  permitPackageId : String
  fileName : String
  fileType : String
  category : String
  uploadedBy : String
  versionTag : Option String
  notes : Option String
  isRequired : Bool
  isVerified : Bool
  status : String
  fileSize : Nat
  storagePath : String
  parentDocumentId : Option String
  versionGroupId : Option String
deriving DecidableEq

structure ActivityLogEntry where
  permitPackageId : String
  userId : Option String
  activityType : String
  description : String
  oldValue : Option String
  newValue : Option String
  metadata : Option String
deriving DecidableEq

/-- The backing store.  `nextId` is the id supply standing in for Prisma's
cuid generation: each `create` consumes one value. -/
structure DB where
  permits : List PermitPackage
  tasks : List Task
  documents : List PermitDocument
  activityLogs : List ActivityLogEntry
  nextId : Nat
deriving DecidableEq

def genId (n : Nat) : String := "rec" ++ toString n

/-! ### Prisma primitives (`findUnique` / `update` by primary key, `findFirst`) -/

def findPermit : List PermitPackage → String → Option PermitPackage
  | [], _ => none
  | p :: ps, i => if p.id = i then some p else findPermit ps i

def findTask : List Task → String → Option Task
  | [], _ => none
  | t :: ts, i => if t.id = i then some t else findTask ts i

def findDocument : List PermitDocument → String → Option PermitDocument
  | [], _ => none
  | d :: ds, i => if d.id = i then some d else findDocument ds i

def updatePermit : List PermitPackage → String → (PermitPackage → PermitPackage) →
    List PermitPackage
  | [], _, _ => []
  | p :: ps, i, f => (if p.id = i then f p else p) :: updatePermit ps i f

def updateTask : List Task → String → (Task → Task) → List Task
  | [], _, _ => []
  | t :: ts, i, f => (if t.id = i then f t else t) :: updateTask ts i f

def updateDocument : List PermitDocument → String → (PermitDocument → PermitDocument) →
    List PermitDocument
  | [], _, _ => []
  | d :: ds, i, f => (if d.id = i then f d else d) :: updateDocument ds i f

/-- Prisma `task.findFirst` with `where: (permitPackageId, name: "Send to Billing")`. -/
def findSendToBilling : List Task → String → Option Task
  | [], _ => none
  | t :: ts, pid =>
    if t.permitPackageId = pid ∧ t.name = "Send to Billing" then some t
    else findSendToBilling ts pid

/-! ### Responses -/

inductive ApiResp where
  | ok
  | created
  | badRequest
  | notFound
  | serverError
deriving DecidableEq

/-! ### `POST /api/permits/[id]/status` (`src/app/api/permits/[id]/status/route.ts`) -/

structure PermitStatusUpdateInput where
  status : String
  internalStage : Option String
  note : Option String
deriving DecidableEq

/-- Validation: `permitStatusUpdateSchema.parse` succeeds. -/
def permitStatusUpdateValid (body : PermitStatusUpdateInput) : Bool :=
  permitStatusEnum.contains body.status &&
    (match body.internalStage with
     | none => true
     | some st => internalStageEnum.contains st)

/-- Serialised `JSON.stringify(\x7b internalStage \x7d)` payload for the audit `metadata` column. -/
def jsonInternalStage (st : String) : String :=
  "\x7b\"internalStage\":\"" ++ st ++ "\"\x7d"

namespace StatusRoute

/-- The status-update handler.  `auditFails` injects the outcome of the
`prisma.activityLog.create` call that follows the permit update: when the
insert rejects, the handler falls through to its `catch` block with the
permit row already updated and nothing rolled back. -/
def POST (db : DB) (userId permitId : String) (body : PermitStatusUpdateInput)
    (auditFails : Bool) : ApiResp × DB :=
  if ¬ permitStatusUpdateValid body then (.badRequest, db)
  else
    match findPermit db.permits permitId with
    | none => (.notFound, db)
    | some currentPermit =>
      let db1 : DB := { db with
        permits := updatePermit db.permits permitId (fun p =>
          { p with
            status := body.status,
            internalStage :=
              match jsTruthy body.internalStage with
              | some st => some st
              | none => p.internalStage }) }
      if auditFails then (.serverError, db1)
      else
        let activityDescription :=
          match body.note with
          | some note =>
            note ++ " (Status: " ++ currentPermit.status ++ " → " ++ body.status ++ ")"
          | none =>
            "Status changed from " ++ currentPermit.status ++ " to " ++ body.status
        let entry : ActivityLogEntry := {
          permitPackageId := permitId
          userId := some userId
          activityType := "StatusChange"
          description := activityDescription
          oldValue := some currentPermit.status
          newValue := some body.status
          metadata := (jsTruthy body.internalStage).map jsonInternalStage }
        let db2 : DB := { db1 with activityLogs := db1.activityLogs ++ [entry] }
        if body.status = "Approved" then
          match findSendToBilling db2.tasks permitId with
          | some _ => (.ok, db2)
          | none =>
            let task : Task := {
              id := genId db2.nextId
              permitPackageId := permitId
              name := "Send to Billing"
              description := some "Permit approved - send to billing department"
              status := "NotStarted"
              assignedTo := none
              dueDate := none
              completedAt := none
              priority := some "high" }
            let entry2 : ActivityLogEntry := {
              permitPackageId := permitId
              userId := some userId
              activityType := "TaskCreated"
              description := "Task \"Send to Billing\" auto-created"
              oldValue := none
              newValue := none
              metadata := none }
            (.ok, { db2 with
              tasks := db2.tasks ++ [task]
              activityLogs := db2.activityLogs ++ [entry2]
              nextId := db2.nextId + 1 })
        else (.ok, db2)

end StatusRoute

/-! ### `PATCH /api/permits/[id]` (`src/app/api/permits/[id]/route.ts`) -/

structure PermitPackageUpdateInput where
  projectName : Option String
  status : Option String
  internalStage : Option String
  permitNumber : Option String
  targetIssueDate : Option String
  billingStatus : Option String
  billingNotes : Option String
deriving DecidableEq

/-- Validation: `permitPackageUpdateSchema.parse` succeeds (enum members when present). -/
def permitPackageUpdateValid (body : PermitPackageUpdateInput) : Bool :=
  (match body.status with
   | none => true
   | some s => permitStatusEnum.contains s) &&
  (match body.internalStage with
   | none => true
   | some st => internalStageEnum.contains st) &&
  (match body.billingStatus with
   | none => true
   | some b => billingStatusEnum.contains b)

namespace PermitRoute

/-- The generic permit update handler: applies the patch via object spread,
then logs a `StatusChange` only when a status was supplied and differs from
the current one, and a `BillingStatusChange` likewise. -/
def PATCH (db : DB) (userId permitId : String) (body : PermitPackageUpdateInput) :
    ApiResp × DB :=
  if ¬ permitPackageUpdateValid body then (.badRequest, db)
  else
    match findPermit db.permits permitId with
    | none => (.notFound, db)
    | some currentPermit =>
      let db1 : DB := { db with
        permits := updatePermit db.permits permitId (fun p =>
          { p with
            projectName := body.projectName.getD p.projectName,
            status := body.status.getD p.status,
            internalStage :=
              match body.internalStage with
              | some st => some st
              | none => p.internalStage,
            permitNumber :=
              match body.permitNumber with
              | some x => some x
              | none => p.permitNumber,
            targetIssueDate :=
              match body.targetIssueDate with
              | some d => some d
              | none => p.targetIssueDate,
            billingStatus := body.billingStatus.getD p.billingStatus,
            billingNotes :=
              match body.billingNotes with
              | some x => some x
              | none => p.billingNotes }) }
      let db2 : DB :=
        match jsTruthy body.status with
        | some s =>
          if s ≠ currentPermit.status then
            { db1 with activityLogs := db1.activityLogs ++ [{
                permitPackageId := permitId
                userId := some userId
                activityType := "StatusChange"
                description :=
                  "Status changed from " ++ currentPermit.status ++ " to " ++ s
                oldValue := some currentPermit.status
                newValue := some s
                metadata := none }] }
          else db1
        | none => db1
      let db3 : DB :=
        match jsTruthy body.billingStatus with
        | some b =>
          if b ≠ currentPermit.billingStatus then
            { db2 with activityLogs := db2.activityLogs ++ [{
                permitPackageId := permitId
                userId := some userId
                activityType := "BillingStatusChange"
                description :=
                  "Billing status changed from " ++ currentPermit.billingStatus ++
                    " to " ++ b
                oldValue := some currentPermit.billingStatus
                newValue := some b
                metadata := none }] }
          else db2
        | none => db2
      (.ok, db3)

end PermitRoute

/-! ### `PATCH /api/tasks/[id]` (`src/app/api/tasks/[id]/route.ts`) -/

structure TaskUpdateInput where
  name : Option String
  description : Option String
  status : Option String
  assignedTo : Option String
  dueDate : Option String
  priority : Option String
deriving DecidableEq

/-- Validation: `taskUpdateSchema.parse` succeeds. -/
def taskUpdateValid (body : TaskUpdateInput) : Bool :=
  (match body.name with
   | none => true
   | some n => n ≠ "") &&
  (match body.status with
   | none => true
   | some s => taskStatusEnum.contains s) &&
  (match body.priority with
   | none => true
   | some p => priorityEnum.contains p)

namespace TasksRoute

/-- The task update handler.  Note the `completedAt` branch: the source
compares `validatedData.status !== 'Completed'`, which is also true when
`status` is absent from the patch (`undefined !== 'Completed'`), so a
status-less patch of a task currently in `Completed` falls into the
clearing branch. -/
def PATCH (db : DB) (userId taskId : String) (body : TaskUpdateInput) (now : Nat) :
    ApiResp × DB :=
  if ¬ taskUpdateValid body then (.badRequest, db)
  else
    match findTask db.tasks taskId with
    | none => (.notFound, db)
    | some currentTask =>
      let setCompletedAt : Option (Option Nat) :=
        if body.status = some "Completed" ∧ currentTask.status ≠ "Completed" then
          some (some now)
        else if body.status ≠ some "Completed" ∧ currentTask.status = "Completed" then
          some none
        else none
      let db1 : DB := { db with
        tasks := updateTask db.tasks taskId (fun t =>
          { t with
            name := body.name.getD t.name,
            description :=
              match body.description with
              | some d => some d
              | none => t.description,
            status := body.status.getD t.status,
            assignedTo :=
              match body.assignedTo with
              | some a => some a
              | none => t.assignedTo,
            dueDate :=
              match body.dueDate with
              | some d => some d
              | none => t.dueDate,
            completedAt :=
              match setCompletedAt with
              | some v => v
              | none => t.completedAt }) }
      let db2 : DB :=
        match jsTruthy body.status with
        | some s =>
          if s ≠ currentTask.status then
            { db1 with activityLogs := db1.activityLogs ++ [{
                permitPackageId := currentTask.permitPackageId
                userId := some userId
                activityType := if s = "Completed" then "TaskCompleted" else "FieldUpdated"
                description :=
                  "Task \"" ++ body.name.getD currentTask.name ++
                    "\" status changed to " ++ s
                oldValue := some currentTask.status
                newValue := some s
                metadata := none }] }
          else db1
        | none => db1
      (.ok, db2)

end TasksRoute

/-! ### Path and MIME helpers (`src/lib/storage.ts`, POSIX `path` semantics) -/

/-- Split a character list at `/`, keeping empty segments. -/
def splitOnSlash : List Char → List (List Char)
  | [] => [[]]
  | c :: rest =>
    let r := splitOnSlash rest
    if c = '/' then [] :: r
    else (c :: r.headD []) :: r.tail

/-- JS `String.prototype.startsWith` (character-prefix test). -/
def strStartsWith (s pre : String) : Bool := pre.toList.isPrefixOf s.toList

/-- Node `path.basename`. -/
def basenameOf (p : String) : String :=
  match ((splitOnSlash p.toList).map String.mk).filter (fun seg => seg ≠ "") |>.getLast? with
  | some seg => seg
  | none => ""

/-- Node `path.extname`: substring of the basename from its last `.`; empty when
there is no dot or the only dot is the leading character. -/
def extname (p : String) : String :=
  let cs := (basenameOf p).toList
  let pre := cs.reverse.takeWhile (fun c => c ≠ '.')
  if pre.length = cs.length then ""
  else if cs.length - 1 - pre.length = 0 then ""
  else String.mk ('.' :: pre.reverse)

/-- Node `path.basename(originalName, ext)`. -/
def baseNameNoExt (p : String) : String :=
  (basenameOf p).dropRight (extname p).length

def getMimeType (fileName : String) : String :=
  let ext := (extname fileName).toLower
  if ext = ".pdf" then "application/pdf"
  else if ext = ".jpg" then "image/jpeg"
  else if ext = ".jpeg" then "image/jpeg"
  else if ext = ".png" then "image/png"
  else if ext = ".gif" then "image/gif"
  else if ext = ".doc" then "application/msword"
  else if ext = ".docx" then
    "application/vnd.openxmlformats-officedocument.wordprocessingml.document"
  else if ext = ".xls" then "application/vnd.ms-excel"
  else if ext = ".xlsx" then
    "application/vnd.openxmlformats-officedocument.spreadsheetml.sheet"
  else if ext = ".txt" then "text/plain"
  else "application/octet-stream"

def splitPath (s : String) : List String :=
  ((splitOnSlash s.toList).map String.mk).filter (fun seg => seg ≠ "")

/-- Normalise path segments: drop `.`, let `..` pop the previous segment
(and stay at the root when there is none), collapse repeated separators. -/
def normSegs (segs : List String) : List String :=
  segs.foldl (fun acc seg =>
    if seg = "." then acc
    else if seg = ".." then acc.dropLast
    else acc ++ [seg]) []

/-- Node `path.resolve` of an absolute path. -/
def resolveAbs (s : String) : String :=
  "/" ++ String.intercalate "/" (normSegs (splitPath s))

/-- Node `path.join` with an absolute first argument (Node `join` normalises). -/
def pathJoin (a b : String) : String := resolveAbs (a ++ "/" ++ b)

/-- Containment: `p` names the directory `root` itself or a path strictly inside it;
this is path containment by directory structure, unlike the source's
string-prefix test. -/
def insideDir (root p : String) : Bool :=
  (p == root) || strStartsWith p (root ++ "/")

/-! ### `LocalStorageAdapter` (`src/lib/storage.ts`) -/

def MAX_FILE_SIZE : Nat := 50 * 1024 * 1024

namespace LocalStorageAdapter

/-- Adapter `generateUniqueFileName`: `timestamp` (`Date.now()`) and `random`
(`randomBytes(4).toString("hex")`) are supplied by the caller. -/
def generateUniqueFileName (originalName timestamp random : String) : String :=
  baseNameNoExt originalName ++ "_" ++ timestamp ++ "_" ++ random ++ extname originalName

/-- Adapter `save`: rejects oversize payloads, otherwise writes the file and returns
the storage path `permits/{permitId}/{uniqueFileName}` relative to the root. -/
def save (fileSize : Nat) (fileName permitId timestamp random : String) :
    Except String String :=
  if fileSize > MAX_FILE_SIZE then
    .error "File size exceeds maximum allowed size of 50MB"
  else
    .ok ("permits/" ++ permitId ++ "/" ++ generateUniqueFileName fileName timestamp random)

/-- Adapter `get`: on success returns the (already normalised) full path the adapter
passes to `fs.readFile`. -/
def get (rootPath filePath : String) : Except String String :=
  let fullPath := pathJoin rootPath filePath
  let resolvedPath := resolveAbs fullPath
  let resolvedRoot := resolveAbs rootPath
  if ¬ strStartsWith resolvedPath resolvedRoot then
    .error "Invalid file path: outside storage root"
  else .ok fullPath

/-- Adapter `delete`: on success returns the full path the adapter passes to
`fs.unlink` (an `ENOENT` from the unlink itself is swallowed). -/
def delete (rootPath filePath : String) : Except String String :=
  let fullPath := pathJoin rootPath filePath
  let resolvedPath := resolveAbs fullPath
  let resolvedRoot := resolveAbs rootPath
  if ¬ strStartsWith resolvedPath resolvedRoot then
    .error "Invalid file path: outside storage root"
  else .ok fullPath

end LocalStorageAdapter

/-! ### `POST /api/permits/[id]/documents` (`src/app/api/permits/[id]/documents/route.ts`) -/

structure FileUpload where
  name : String
  size : Nat
deriving DecidableEq

structure DocumentUploadForm where
  file : Option FileUpload
  category : String
  notes : Option String
  isRequired : Bool
  isNewVersion : Bool
  parentDocumentId : Option String
deriving DecidableEq

/-- The version-group computation of the upload handler:
`parentDoc?.versionGroupId || parentDocumentId` when a parent id was given,
a fresh hex id (`gen`) when `isNewVersion` is set without a parent, unset
otherwise.  A parent id that does not resolve is not rejected here: the
`?.` yields `undefined` and the `||` falls back to the dangling id itself. -/
def computeVersionGroupId (docs : List PermitDocument) (isNewVersion : Bool)
    (parentDocumentId : Option String) (gen : String) : Option String :=
  match isNewVersion, jsTruthy parentDocumentId with
  | true, some pid =>
    (match findDocument docs pid with
     | some parentDoc => some (jsOrStr parentDoc.versionGroupId pid)
     | none => some pid)
  | true, none => some gen
  | false, _ => none

/-- Documents sharing the upload's `(permitPackageId, fileName, category)`
bucket, in creation order. -/
def bucketDocs (docs : List PermitDocument) (pid fn cat : String) :
    List PermitDocument :=
  docs.filter (fun d => decide (d.permitPackageId = pid ∧ d.fileName = fn ∧ d.category = cat))

/-- Version tag: `existingVersions > 0 ? "v" + (existingVersions + 1) : "v1"`. -/
def vTag (count : Nat) : String :=
  if count > 0 then "v" ++ toString (count + 1) else "v1"

/-- Prisma `permitDocument.create`.  The DDL declares `parentDocumentId` a
self-referencing foreign key, so an insert carrying a dangling parent id is
rejected by the store (Prisma error P2003 → the handler's catch block). -/
def createDocument (db : DB) (row : PermitDocument) : Except Unit DB :=
  match row.parentDocumentId with
  | some pid =>
    (match findDocument db.documents pid with
     | some _ => .ok { db with documents := db.documents ++ [row], nextId := db.nextId + 1 }
     | none => .error ())
  | none => .ok { db with documents := db.documents ++ [row], nextId := db.nextId + 1 }

namespace DocumentsRoute

/-- The upload handler.  `saveResult` injects the outcome of the awaited
`storage.save` call; `gen` supplies `randomBytes(16).toString("hex")`. -/
def POST (db : DB) (userId permitId : String) (form : DocumentUploadForm)
    (saveResult : Except String String) (gen : String) : ApiResp × DB :=
  match findPermit db.permits permitId with
  | none => (.notFound, db)
  | some _ =>
    match form.file with
    | none => (.badRequest, db)
    | some file =>
      if ¬ documentCategoryEnum.contains form.category then (.badRequest, db)
      else
        match saveResult with
        | .error _ => (.serverError, db)
        | .ok storagePath =>
          let versionGroupId :=
            computeVersionGroupId db.documents form.isNewVersion form.parentDocumentId gen
          let existingVersions :=
            (bucketDocs db.documents permitId file.name form.category).length
          let versionTag := vTag existingVersions
          let row : PermitDocument := {
            id := genId db.nextId
            permitPackageId := permitId
            fileName := file.name
            fileType := getMimeType file.name
            category := form.category
            uploadedBy := userId
            versionTag := some versionTag
            notes := jsTruthy form.notes
            isRequired := form.isRequired
            isVerified := false
            status := "Pending"
            fileSize := file.size
            storagePath := storagePath
            parentDocumentId :=
              if form.isNewVersion then jsTruthy form.parentDocumentId else none
            versionGroupId := versionGroupId }
          match createDocument db row with
          | .error _ => (.serverError, db)
          | .ok db1 =>
            let entry : ActivityLogEntry := {
              permitPackageId := permitId
              userId := some userId
              activityType := "DocumentUploaded"
              description :=
                "Document \"" ++ file.name ++ "\" uploaded (" ++ form.category ++ ")"
              oldValue := none
              newValue := none
              metadata := none }
            (.created, { db1 with activityLogs := db1.activityLogs ++ [entry] })

end DocumentsRoute

/-! ### `POST /api/documents/[id]/verify` -/

namespace DocumentVerifyRoute

/-- The verify handler: sets `isVerified` and the correlated `status`,
merges notes via JS `||`, and (unconditionally) appends a
`DocumentVerified` audit entry. -/
def POST (db : DB) (userId documentId : String) (isVerified : Bool)
    (notes : Option String) : ApiResp × DB :=
  match findDocument db.documents documentId with
  | none => (.notFound, db)
  | some currentDocument =>
    let db1 : DB := { db with
      documents := updateDocument db.documents documentId (fun d =>
        { d with
          isVerified := isVerified,
          status := if isVerified then "Verified" else "Pending",
          notes := jsOr notes currentDocument.notes }) }
    let entry : ActivityLogEntry := {
      permitPackageId := currentDocument.permitPackageId
      userId := some userId
      activityType := "DocumentVerified"
      description :=
        "Document \"" ++ currentDocument.fileName ++ "\" " ++
          (if isVerified then "verified" else "unverified") ++
          (match jsTruthy notes with
           | some n => ": " ++ n
           | none => "")
      oldValue := none
      newValue := none
      metadata := none }
    (.ok, { db1 with activityLogs := db1.activityLogs ++ [entry] })

end DocumentVerifyRoute

/-! ### Derived observations used by the statements -/

/-- The `StatusChange` audit entries for one permit, oldest first. -/
def statusChangeLogs (logs : List ActivityLogEntry) (pid : String) :
    List ActivityLogEntry :=
  logs.filter (fun e => decide (e.permitPackageId = pid ∧ e.activityType = "StatusChange"))

/-- The `TaskCreated` audit entries for one permit, oldest first. -/
def taskCreatedLogs (logs : List ActivityLogEntry) (pid : String) :
    List ActivityLogEntry :=
  logs.filter (fun e => decide (e.permitPackageId = pid ∧ e.activityType = "TaskCreated"))

/-- Tasks named `Send to Billing` attached to one permit. -/
def sendToBillingTasks (ts : List Task) (pid : String) : List Task :=
  ts.filter (fun t => decide (t.permitPackageId = pid ∧ t.name = "Send to Billing"))

/-- Repeated `setStatus(p, "Approved")` through the status route, all
collaborator calls succeeding. -/
def approveN (db : DB) (userId permitId : String) : Nat → DB
  | 0 => db
  | n + 1 =>
    (StatusRoute.POST (approveN db userId permitId n) userId permitId
      { status := "Approved", internalStage := none, note := none } false).2

/-- A plain upload form (no new-version flags). -/
def plainUpload (fn : String) (sz : Nat) (cat : String) : DocumentUploadForm :=
  { file := some { name := fn, size := sz }
    category := cat
    notes := none
    isRequired := false
    isNewVersion := false
    parentDocumentId := none }

/-- Repeated uploads of the same `(fileName, category)` to the same permit,
storage succeeding each time with path `sp`. -/
def uploadN (db : DB) (userId permitId fn cat sp : String) (sz : Nat) : Nat → DB
  | 0 => db
  | n + 1 =>
    (DocumentsRoute.POST (uploadN db userId permitId fn cat sp sz n) userId permitId
      (plainUpload fn sz cat) (.ok sp) "").2

/-- A general upload form maker used in the statements. -/
def uploadForm (fn : String) (sz : Nat) (cat : String) (isNew : Bool)
    (parent : Option String) : DocumentUploadForm :=
  { file := some { name := fn, size := sz }
    category := cat
    notes := none
    isRequired := false
    isNewVersion := isNew
    parentDocumentId := parent }

/-! ### Concrete fixture states -/

def permitP1 : PermitPackage :=
  { id := "p1"
    customerId := "c1"
    contractorId := "k1"
    projectName := "Garage"
    projectAddress := "1 Main St"
    permitType := "Building"
    status := "New"
    internalStage := none
    permitNumber := none
    targetIssueDate := none
    billingStatus := "NotSent"
    billingNotes := none }

/-- One permit in status `New`, no tasks, documents or audit entries. -/
def dbNew : DB :=
  { permits := [permitP1], tasks := [], documents := [], activityLogs := [], nextId := 0 }

def taskReview : Task :=
  { id := "t1"
    permitPackageId := "p1"
    name := "Review plans"
    description := none
    status := "Completed"
    assignedTo := none
    dueDate := none
    completedAt := some 5
    priority := none }

def dbTask : DB := { dbNew with tasks := [taskReview] }

def docRoot : PermitDocument :=
  { id := "d1"
    permitPackageId := "p1"
    fileName := "plans.pdf"
    fileType := "application/pdf"
    category := "Plans"
    uploadedBy := "u1"
    versionTag := some "v1"
    notes := none
    isRequired := false
    isVerified := false
    status := "Pending"
    fileSize := 3
    storagePath := "permits/p1/plans_1_aa.pdf"
    parentDocumentId := none
    versionGroupId := none }

def docChild : PermitDocument :=
  { docRoot with id := "d2", versionTag := some "v2", versionGroupId := some "grp" }

def dbDocs : DB := { dbNew with documents := [docRoot, docChild] }

/-! ### Shared lemmas -/

theorem findPermit_updatePermit (ps : List PermitPackage) (i : String)
    (f : PermitPackage → PermitPackage) (hid : ∀ p, (f p).id = p.id) :
    findPermit (updatePermit ps i f) i = (findPermit ps i).map f := by
  induction ps with
  | nil => rfl
  | cons p ps ih =>
    by_cases h : p.id = i
    · simp [updatePermit, findPermit, h, hid]
    · simp [updatePermit, findPermit, h, ih]

theorem findDocument_updateDocument (ds : List PermitDocument) (i : String)
    (f : PermitDocument → PermitDocument) (hid : ∀ d, (f d).id = d.id) :
    findDocument (updateDocument ds i f) i = (findDocument ds i).map f := by
  induction ds with
  | nil => rfl
  | cons d ds ih =>
    by_cases h : d.id = i
    · simp [updateDocument, findDocument, h, hid]
    · simp [updateDocument, findDocument, h, ih]

theorem findSendToBilling_eq_none_iff (ts : List Task) (pid : String) :
    findSendToBilling ts pid = none ↔ sendToBillingTasks ts pid = [] := by
  induction ts with
  | nil => simp [findSendToBilling, sendToBillingTasks]
  | cons t ts ih =>
    by_cases h : t.permitPackageId = pid ∧ t.name = "Send to Billing"
    · simp [findSendToBilling, sendToBillingTasks, List.filter_cons, h]
    · simp [findSendToBilling, sendToBillingTasks, List.filter_cons, h, ih]

theorem vTag_eq (c : Nat) : vTag c = "v" ++ toString (c + 1) := by
  cases c with
  | zero => decide
  | succ n => simp [vTag]

theorem sendToBillingTasks_append (a b : List Task) (pid : String) :
    sendToBillingTasks (a ++ b) pid =
      sendToBillingTasks a pid ++ sendToBillingTasks b pid := by
  simp [sendToBillingTasks, List.filter_append]

theorem taskCreatedLogs_append (a b : List ActivityLogEntry) (pid : String) :
    taskCreatedLogs (a ++ b) pid = taskCreatedLogs a pid ++ taskCreatedLogs b pid := by
  simp [taskCreatedLogs, List.filter_append]

theorem taskCreatedLogs_single_ne (pid : String) (e : ActivityLogEntry)
    (h : ¬ e.activityType = "TaskCreated") : taskCreatedLogs [e] pid = [] := by
  simp [taskCreatedLogs, h]

/-- One `setStatus(p, "Approved")` through the status route when no
`Send to Billing` task exists yet: permit updated, one `StatusChange` and
one `TaskCreated` entry appended, the automation task created. -/
theorem statusPOST_approved_create (db : DB) (u pid : String) (P : PermitPackage)
    (hP : findPermit db.permits pid = some P)
    (h0 : findSendToBilling db.tasks pid = none) :
    StatusRoute.POST db u pid { status := "Approved", internalStage := none, note := none }
      false =
    (ApiResp.ok,
      { permits := updatePermit db.permits pid (fun p => { p with status := "Approved" })
        tasks := db.tasks ++ [{
          id := genId db.nextId
          permitPackageId := pid
          name := "Send to Billing"
          description := some "Permit approved - send to billing department"
          status := "NotStarted"
          assignedTo := none
          dueDate := none
          completedAt := none
          priority := some "high" }]
        documents := db.documents
        activityLogs := db.activityLogs ++ [{
          permitPackageId := pid
          userId := some u
          activityType := "StatusChange"
          description := "Status changed from " ++ P.status ++ " to Approved"
          oldValue := some P.status
          newValue := some "Approved"
          metadata := none },
          { permitPackageId := pid
            userId := some u
            activityType := "TaskCreated"
            description := "Task \"Send to Billing\" auto-created"
            oldValue := none
            newValue := none
            metadata := none }]
        nextId := db.nextId + 1 }) := by
  simp [StatusRoute.POST, hP, h0, permitStatusUpdateValid, permitStatusEnum, jsTruthy,
    String.append_assoc]

/-- One `setStatus(p, "Approved")` when a `Send to Billing` task already
exists: permit updated, one `StatusChange` entry appended, nothing else. -/
theorem statusPOST_approved_existing (db : DB) (u pid : String) (P : PermitPackage) (t : Task)
    (hP : findPermit db.permits pid = some P)
    (ht : findSendToBilling db.tasks pid = some t) :
    StatusRoute.POST db u pid { status := "Approved", internalStage := none, note := none }
      false =
    (ApiResp.ok,
      { permits := updatePermit db.permits pid (fun p => { p with status := "Approved" })
        tasks := db.tasks
        documents := db.documents
        activityLogs := db.activityLogs ++ [{
          permitPackageId := pid
          userId := some u
          activityType := "StatusChange"
          description := "Status changed from " ++ P.status ++ " to Approved"
          oldValue := some P.status
          newValue := some "Approved"
          metadata := none }]
        nextId := db.nextId }) := by
  simp [StatusRoute.POST, hP, ht, permitStatusUpdateValid, permitStatusEnum, jsTruthy,
    String.append_assoc]

theorem mem_permitStatusEnum_ne_empty (s : String)
    (h : s ∈ permitStatusEnum) : s ≠ "" := by
  intro he
  subst he
  revert h
  decide

/-! ### Claim C1 -/

/-- Claim C1, as stated, is false on the code: the status route performs the
permit update and the audit insert as two independent sequential calls with
no transaction.  Concretely, setting `p1` from `New` to `Submitted` with
the audit insert failing reaches a state whose permit carries the new
status while the activity log is empty — the state mutation was not rolled
back. -/
theorem C1_counterexample :
    (StatusRoute.POST dbNew "u1" "p1"
        { status := "Submitted", internalStage := none, note := none } true).1 =
      ApiResp.serverError ∧
    ((StatusRoute.POST dbNew "u1" "p1"
        { status := "Submitted", internalStage := none, note := none } true).2.permits.map
      PermitPackage.status) = ["Submitted"] ∧
    (StatusRoute.POST dbNew "u1" "p1"
        { status := "Submitted", internalStage := none, note := none } true).2.activityLogs =
      [] := by
  decide

/-- Claim C1 amended: the state write and the audit write of the status route are
two independent sequential calls.  When the audit insert fails after the
permit update, the handler returns a 500 with the permit already carrying
the new status, the activity log unchanged (no audit entry), and no
rollback of any kind. -/
theorem C1_amended_thm (db : DB) (u pid : String) (body : PermitStatusUpdateInput)
    (P : PermitPackage)
    (hv : permitStatusUpdateValid body = true)
    (hP : findPermit db.permits pid = some P) :
    (StatusRoute.POST db u pid body true).1 = ApiResp.serverError ∧
    ((findPermit (StatusRoute.POST db u pid body true).2.permits pid).map
      PermitPackage.status) = some body.status ∧
    (StatusRoute.POST db u pid body true).2.activityLogs = db.activityLogs ∧
    (StatusRoute.POST db u pid body true).2.tasks = db.tasks := by
  refine ⟨?_, ?_, ?_, ?_⟩ <;>
    simp [StatusRoute.POST, hv, hP, findPermit_updatePermit]

/-- Claim C1 amended, witnessed at a concrete state: hypotheses hold at `dbNew`
and the amended conclusion follows by the theorem. -/
theorem C1_witness :
    permitStatusUpdateValid { status := "Submitted", internalStage := none, note := none } =
      true ∧
    findPermit dbNew.permits "p1" = some permitP1 ∧
    ((StatusRoute.POST dbNew "u1" "p1"
        { status := "Submitted", internalStage := none, note := none } true).1 =
      ApiResp.serverError ∧
    ((findPermit (StatusRoute.POST dbNew "u1" "p1"
        { status := "Submitted", internalStage := none, note := none } true).2.permits
        "p1").map PermitPackage.status) = some "Submitted" ∧
    (StatusRoute.POST dbNew "u1" "p1"
        { status := "Submitted", internalStage := none, note := none } true).2.activityLogs =
      dbNew.activityLogs ∧
    (StatusRoute.POST dbNew "u1" "p1"
        { status := "Submitted", internalStage := none, note := none } true).2.tasks =
      dbNew.tasks) :=
  ⟨by decide, by decide,
    C1_amended_thm dbNew "u1" "p1"
      { status := "Submitted", internalStage := none, note := none } permitP1
      (by decide) (by decide)⟩

/-! ### Claim C2 -/

/-- Claim C2, as stated, is false on the code: the dedicated status route has no
same-status check.  Setting `p1` (already `New`) to `New` writes one
`StatusChange` audit entry with `oldValue = newValue = "New"` instead of
zero rows. -/
theorem C2_counterexample :
    permitP1.status = "New" ∧
    ((StatusRoute.POST dbNew "u1" "p1"
        { status := "New", internalStage := none, note := none } false).2.activityLogs.map
      (fun e => (e.activityType, e.oldValue, e.newValue))) =
      [("StatusChange", some "New", some "New")] := by
  decide

/-- Claim C2 amended: the dedicated status route always writes exactly one
`StatusChange` entry even when the new status equals the current status
(with `oldValue = newValue`); only the generic permit PATCH route skips the
audit write when the supplied status is unchanged. -/
theorem C2_amended_thm (db : DB) (u pid : String) (P : PermitPackage)
    (body : PermitStatusUpdateInput) (patch : PermitPackageUpdateInput)
    (hP : findPermit db.permits pid = some P)
    (hv : permitStatusUpdateValid body = true)
    (hs : body.status = P.status)
    (hpv : permitPackageUpdateValid patch = true)
    (hps : patch.status = some P.status)
    (hpb : patch.billingStatus = none) :
    ((statusChangeLogs (StatusRoute.POST db u pid body false).2.activityLogs pid).map
      (fun e => (e.oldValue, e.newValue))) =
      ((statusChangeLogs db.activityLogs pid).map (fun e => (e.oldValue, e.newValue))) ++
        [(some P.status, some P.status)] ∧
    (PermitRoute.PATCH db u pid patch).2.activityLogs = db.activityLogs := by
  have hne : P.status ≠ "" := by
    apply mem_permitStatusEnum_ne_empty
    have hpv2 := hpv
    simp [permitPackageUpdateValid, hps] at hpv2
    exact hpv2.1.1
  constructor
  · by_cases hA : body.status = "Approved"
    · have hPA : P.status = "Approved" := by rw [← hs, hA]
      cases ht : findSendToBilling db.tasks pid with
      | none =>
        simp [StatusRoute.POST, hv, hP, ht, statusChangeLogs, List.filter_append, hs, hPA]
      | some t =>
        simp [StatusRoute.POST, hv, hP, ht, statusChangeLogs, List.filter_append, hs, hPA]
    · have hPA : P.status ≠ "Approved" := by rw [← hs]; exact hA
      simp [StatusRoute.POST, hv, hP, statusChangeLogs, List.filter_append, hs, hPA]
  · simp [PermitRoute.PATCH, hpv, hP, hps, hpb, jsTruthy, hne]

/-- Claim C2 amended, witnessed at a concrete state: `p1` is `New`, the status
route is called with `New` again and writes its entry; the PATCH route with
`status := "New"` writes nothing. -/
theorem C2_witness :
    findPermit dbNew.permits "p1" = some permitP1 ∧
    permitStatusUpdateValid { status := "New", internalStage := none, note := none } = true ∧
    permitPackageUpdateValid
      { projectName := none, status := some "New", internalStage := none,
        permitNumber := none, targetIssueDate := none, billingStatus := none,
        billingNotes := none } = true ∧
    (((statusChangeLogs (StatusRoute.POST dbNew "u1" "p1"
          { status := "New", internalStage := none, note := none }
          false).2.activityLogs "p1").map (fun e => (e.oldValue, e.newValue))) =
      ((statusChangeLogs dbNew.activityLogs "p1").map
        (fun e => (e.oldValue, e.newValue))) ++ [(some "New", some "New")] ∧
    (PermitRoute.PATCH dbNew "u1" "p1"
        { projectName := none, status := some "New", internalStage := none,
          permitNumber := none, targetIssueDate := none, billingStatus := none,
          billingNotes := none }).2.activityLogs = dbNew.activityLogs) :=
  ⟨by decide, by decide, by decide,
    C2_amended_thm dbNew "u1" "p1" permitP1
      { status := "New", internalStage := none, note := none }
      { projectName := none, status := some "New", internalStage := none,
        permitNumber := none, targetIssueDate := none, billingStatus := none,
        billingNotes := none }
      (by decide) (by decide) (by decide) (by decide) (by decide) (by decide)⟩

/-! ### Claim C3 -/

/-- Invariant of repeated `setStatus(p, "Approved")`: after the first call
the `Send to Billing` task exists exactly once (created by the first call,
found by the `(permitId, name)` existence check of every later call), and
exactly one `TaskCreated` entry was appended in total. -/
theorem approveN_inv (db : DB) (u pid : String) (P : PermitPackage)
    (hP : findPermit db.permits pid = some P)
    (h0 : sendToBillingTasks db.tasks pid = []) :
    ∀ n : Nat,
      findPermit (approveN db u pid (n + 1)).permits pid =
        some { P with status := "Approved" } ∧
      sendToBillingTasks (approveN db u pid (n + 1)).tasks pid =
        [{ id := genId db.nextId
           permitPackageId := pid
           name := "Send to Billing"
           description := some "Permit approved - send to billing department"
           status := "NotStarted"
           assignedTo := none
           dueDate := none
           completedAt := none
           priority := some "high" }] ∧
      taskCreatedLogs (approveN db u pid (n + 1)).activityLogs pid =
        taskCreatedLogs db.activityLogs pid ++
          [{ permitPackageId := pid
             userId := some u
             activityType := "TaskCreated"
             description := "Task \"Send to Billing\" auto-created"
             oldValue := none
             newValue := none
             metadata := none }] := by
  intro n
  induction n with
  | zero =>
    have hfind : findSendToBilling db.tasks pid = none :=
      (findSendToBilling_eq_none_iff db.tasks pid).mpr h0
    have hstep := statusPOST_approved_create db u pid P hP hfind
    refine ⟨?_, ?_, ?_⟩
    · simp [approveN, hstep, findPermit_updatePermit, hP]
    · simp only [approveN, hstep]
      rw [sendToBillingTasks_append, h0]
      simp [sendToBillingTasks]
    · simp [approveN, hstep, taskCreatedLogs, List.filter_append]
  | succ k ih =>
    obtain ⟨ih1, ih2, ih3⟩ := ih
    have hne : sendToBillingTasks (approveN db u pid (k + 1)).tasks pid ≠ [] := by
      rw [ih2]; simp
    obtain ⟨t, ht⟩ : ∃ t, findSendToBilling (approveN db u pid (k + 1)).tasks pid = some t := by
      cases hcase : findSendToBilling (approveN db u pid (k + 1)).tasks pid with
      | none =>
        exact absurd ((findSendToBilling_eq_none_iff _ pid).mp hcase) hne
      | some t => exact ⟨t, rfl⟩
    have hstep := statusPOST_approved_existing (approveN db u pid (k + 1)) u pid
      { P with status := "Approved" } t ih1 ht
    refine ⟨?_, ?_, ?_⟩
    · show findPermit (StatusRoute.POST (approveN db u pid (k + 1)) u pid
        { status := "Approved", internalStage := none, note := none } false).2.permits pid = _
      rw [hstep]
      simp [findPermit_updatePermit, ih1]
    · show sendToBillingTasks (StatusRoute.POST (approveN db u pid (k + 1)) u pid
        { status := "Approved", internalStage := none, note := none } false).2.tasks pid = _
      rw [hstep]
      exact ih2
    · show taskCreatedLogs (StatusRoute.POST (approveN db u pid (k + 1)) u pid
        { status := "Approved", internalStage := none, note := none } false).2.activityLogs
          pid = _
      rw [hstep]
      show taskCreatedLogs ((approveN db u pid (k + 1)).activityLogs ++ _) pid = _
      rw [taskCreatedLogs_append, taskCreatedLogs_single_ne _ _ (by simp), List.append_nil]
      exact ih3

/-- Claim C3: starting from a state with no `Send to Billing` task for the
permit, any number `n + 1 ≥ 1` of consecutive `setStatus(p, "Approved")`
calls (so in particular two) leaves exactly one `Send to Billing` task,
with status `NotStarted` and priority `high`, and exactly one `TaskCreated`
audit entry was written in total — the existence check by
`(permitId, name)` suppresses creation on every call after the first. -/
theorem C3_thm (db : DB) (u pid : String) (P : PermitPackage)
    (hP : findPermit db.permits pid = some P)
    (h0 : sendToBillingTasks db.tasks pid = []) :
    ∀ n : Nat,
      ((sendToBillingTasks (approveN db u pid (n + 1)).tasks pid).map
        (fun t => (t.name, t.status, t.priority))) =
        [("Send to Billing", "NotStarted", some "high")] ∧
      (taskCreatedLogs (approveN db u pid (n + 1)).activityLogs pid).length =
        (taskCreatedLogs db.activityLogs pid).length + 1 := by
  intro n
  obtain ⟨_, h2, h3⟩ := approveN_inv db u pid P hP h0 n
  constructor
  · rw [h2]
    rfl
  · rw [h3]
    simp

/-- Claim C3, witnessed concretely: two `Approved` calls on `dbNew` leave one
`Send to Billing` task (`NotStarted`, `high`) and one `TaskCreated` entry. -/
theorem C3_witness :
    findPermit dbNew.permits "p1" = some permitP1 ∧
    sendToBillingTasks dbNew.tasks "p1" = [] ∧
    (((sendToBillingTasks (approveN dbNew "u1" "p1" 2).tasks "p1").map
        (fun t => (t.name, t.status, t.priority))) =
        [("Send to Billing", "NotStarted", some "high")] ∧
      (taskCreatedLogs (approveN dbNew "u1" "p1" 2).activityLogs "p1").length =
        (taskCreatedLogs dbNew.activityLogs "p1").length + 1) :=
  ⟨by decide, by decide, C3_thm dbNew "u1" "p1" permitP1 (by decide) (by decide) 1⟩

/-! ### Claim C4 -/

/-- Characterisation of one plain upload (no new-version flags) against a
state whose permit exists: storage succeeded, so exactly one document row
is appended, tagged from the current bucket count, plus one
`DocumentUploaded` audit entry. -/
theorem documentsPOST_plain (db : DB) (u pid fn cat sp g : String) (sz : Nat)
    (P : PermitPackage)
    (hP : findPermit db.permits pid = some P)
    (hcat : documentCategoryEnum.contains cat = true) :
    DocumentsRoute.POST db u pid (plainUpload fn sz cat) (.ok sp) g =
    (ApiResp.created,
      { permits := db.permits
        tasks := db.tasks
        documents := db.documents ++ [{
          id := genId db.nextId
          permitPackageId := pid
          fileName := fn
          fileType := getMimeType fn
          category := cat
          uploadedBy := u
          versionTag := some (vTag (bucketDocs db.documents pid fn cat).length)
          notes := none
          isRequired := false
          isVerified := false
          status := "Pending"
          fileSize := sz
          storagePath := sp
          parentDocumentId := none
          versionGroupId := none }]
        activityLogs := db.activityLogs ++ [{
          permitPackageId := pid
          userId := some u
          activityType := "DocumentUploaded"
          description := "Document \"" ++ fn ++ "\" uploaded (" ++ cat ++ ")"
          oldValue := none
          newValue := none
          metadata := none }]
        nextId := db.nextId + 1 }) := by
  have hmem : cat ∈ documentCategoryEnum := by simpa using hcat
  simp [DocumentsRoute.POST, hP, hmem, plainUpload, computeVersionGroupId, jsTruthy,
    createDocument]

theorem bucketDocs_append (a b : List PermitDocument) (pid fn cat : String) :
    bucketDocs (a ++ b) pid fn cat = bucketDocs a pid fn cat ++ bucketDocs b pid fn cat := by
  simp [bucketDocs, List.filter_append]

/-- Claim C4: starting from an empty `(permitId, fileName, category)` bucket,
`n` successful uploads of that bucket produce documents tagged
`v1, v2, …, vn` in upload order; each tag is `"v"` followed by one plus
the count of documents already in the bucket (so `v1` at count zero). -/
theorem C4_thm (db : DB) (u pid fn cat sp : String) (sz : Nat) (P : PermitPackage)
    (hP : findPermit db.permits pid = some P)
    (hcat : documentCategoryEnum.contains cat = true)
    (h0 : bucketDocs db.documents pid fn cat = []) :
    (∀ c : Nat, vTag c = "v" ++ toString (c + 1)) ∧
    ∀ n : Nat,
      ((bucketDocs (uploadN db u pid fn cat sp sz n).documents pid fn cat).map
        PermitDocument.versionTag) =
        (List.range n).map (fun i => some ("v" ++ toString (i + 1))) := by
  refine ⟨vTag_eq, ?_⟩
  have key : ∀ n : Nat,
      (uploadN db u pid fn cat sp sz n).permits = db.permits ∧
      ((bucketDocs (uploadN db u pid fn cat sp sz n).documents pid fn cat).map
        PermitDocument.versionTag) =
        (List.range n).map (fun i => some ("v" ++ toString (i + 1))) ∧
      (bucketDocs (uploadN db u pid fn cat sp sz n).documents pid fn cat).length = n := by
    intro n
    induction n with
    | zero => simp [uploadN, h0]
    | succ k ih =>
      obtain ⟨ihp, ihm, ihl⟩ := ih
      have hPk : findPermit (uploadN db u pid fn cat sp sz k).permits pid = some P := by
        rw [ihp]; exact hP
      have hstep := documentsPOST_plain (uploadN db u pid fn cat sp sz k) u pid fn cat sp
        "" sz P hPk hcat
      refine ⟨?_, ?_, ?_⟩
      · show (DocumentsRoute.POST (uploadN db u pid fn cat sp sz k) u pid
          (plainUpload fn sz cat) (.ok sp) "").2.permits = db.permits
        rw [hstep]
        exact ihp
      · show ((bucketDocs (DocumentsRoute.POST (uploadN db u pid fn cat sp sz k) u pid
          (plainUpload fn sz cat) (.ok sp) "").2.documents pid fn cat).map
            PermitDocument.versionTag) = _
        rw [hstep]
        show ((bucketDocs ((uploadN db u pid fn cat sp sz k).documents ++ _) pid fn
          cat).map PermitDocument.versionTag) = _
        rw [bucketDocs_append]
        simp only [List.map_append, ihm, List.range_succ]
        congr 1
        rw [ihl]
        simp [bucketDocs, vTag_eq]
      · show (bucketDocs (DocumentsRoute.POST (uploadN db u pid fn cat sp sz k) u pid
          (plainUpload fn sz cat) (.ok sp) "").2.documents pid fn cat).length = k + 1
        rw [hstep]
        show (bucketDocs ((uploadN db u pid fn cat sp sz k).documents ++ _) pid fn
          cat).length = k + 1
        rw [bucketDocs_append, List.length_append, ihl]
        simp [bucketDocs]
  exact fun n => (key n).2.1

/-- Claim C4, witnessed concretely: three uploads of `plans.pdf` to `Plans` on
`dbNew` yield tags `v1`, `v2`, `v3` in upload order. -/
theorem C4_witness :
    findPermit dbNew.permits "p1" = some permitP1 ∧
    documentCategoryEnum.contains "Plans" = true ∧
    bucketDocs dbNew.documents "p1" "plans.pdf" "Plans" = [] ∧
    ((bucketDocs (uploadN dbNew "u1" "p1" "plans.pdf" "Plans" "permits/p1/x.pdf" 7
        3).documents "p1" "plans.pdf" "Plans").map PermitDocument.versionTag) =
      [some "v1", some "v2", some "v3"] :=
  ⟨by decide, by decide, by decide, by
    have h := (C4_thm dbNew "u1" "p1" "plans.pdf" "Plans" "permits/p1/x.pdf" 7 permitP1
      (by decide) (by decide) (by decide)).2 3
    simpa using h⟩

/-! ### Claim C5 -/

/-- Claim C5: version-group assignment of the upload route.  With `isNewVersion`
and an existing parent `X`: the new document inherits `X.versionGroupId`
when set, and falls back to `X.id` when the parent has none.  With
`isNewVersion` and no parent, the freshly minted hex id `g` becomes the
group.  Without `isNewVersion`, the group is left unset. -/
theorem C5_thm (db : DB) (u pid fn cat sp g : String) (sz : Nat) (P : PermitPackage)
    (hP : findPermit db.permits pid = some P)
    (hcat : documentCategoryEnum.contains cat = true) :
    (∀ (X : PermitDocument) (gid : String),
      findDocument db.documents X.id = some X → X.id ≠ "" →
      X.versionGroupId = some gid → gid ≠ "" →
      (((DocumentsRoute.POST db u pid (uploadForm fn sz cat true (some X.id)) (.ok sp)
          g).2.documents.getLast?).map PermitDocument.versionGroupId) = some (some gid)) ∧
    (∀ X : PermitDocument,
      findDocument db.documents X.id = some X → X.id ≠ "" →
      X.versionGroupId = none →
      (((DocumentsRoute.POST db u pid (uploadForm fn sz cat true (some X.id)) (.ok sp)
          g).2.documents.getLast?).map PermitDocument.versionGroupId) = some (some X.id)) ∧
    (((DocumentsRoute.POST db u pid (uploadForm fn sz cat true none) (.ok sp)
        g).2.documents.getLast?).map PermitDocument.versionGroupId) = some (some g) ∧
    (((DocumentsRoute.POST db u pid (uploadForm fn sz cat false none) (.ok sp)
        g).2.documents.getLast?).map PermitDocument.versionGroupId) = some none := by
  have hmem : cat ∈ documentCategoryEnum := by simpa using hcat
  refine ⟨?_, ?_, ?_, ?_⟩
  · intro X gid hX hXid hXg hgid
    simp [DocumentsRoute.POST, hP, hmem, uploadForm, computeVersionGroupId, jsTruthy,
      jsOrStr, createDocument, hX, hXid, hXg, hgid]
  · intro X hX hXid hXg
    simp [DocumentsRoute.POST, hP, hmem, uploadForm, computeVersionGroupId, jsTruthy,
      jsOrStr, createDocument, hX, hXid, hXg]
  · simp [DocumentsRoute.POST, hP, hmem, uploadForm, computeVersionGroupId, jsTruthy,
      createDocument]
  · simp [DocumentsRoute.POST, hP, hmem, uploadForm, computeVersionGroupId, jsTruthy,
      createDocument]

/-- Claim C5, witnessed concretely on `dbDocs`: uploading against parent `d2`
(grouped `grp`) inherits `grp`; against parent `d1` (no group) receives
`d1`; with no parent receives the minted `g1`; without `isNewVersion`
receives no group. -/
theorem C5_witness :
    findPermit dbDocs.permits "p1" = some permitP1 ∧
    documentCategoryEnum.contains "Plans" = true ∧
    findDocument dbDocs.documents docChild.id = some docChild ∧
    docChild.versionGroupId = some "grp" ∧
    findDocument dbDocs.documents docRoot.id = some docRoot ∧
    docRoot.versionGroupId = none ∧
    ((((DocumentsRoute.POST dbDocs "u1" "p1"
        (uploadForm "plans.pdf" 3 "Plans" true (some docChild.id)) (.ok "sp")
        "g1").2.documents.getLast?).map PermitDocument.versionGroupId) =
      some (some "grp") ∧
    (((DocumentsRoute.POST dbDocs "u1" "p1"
        (uploadForm "plans.pdf" 3 "Plans" true (some docRoot.id)) (.ok "sp")
        "g1").2.documents.getLast?).map PermitDocument.versionGroupId) =
      some (some docRoot.id) ∧
    (((DocumentsRoute.POST dbDocs "u1" "p1"
        (uploadForm "plans.pdf" 3 "Plans" true none) (.ok "sp")
        "g1").2.documents.getLast?).map PermitDocument.versionGroupId) =
      some (some "g1") ∧
    (((DocumentsRoute.POST dbDocs "u1" "p1"
        (uploadForm "plans.pdf" 3 "Plans" false none) (.ok "sp")
        "g1").2.documents.getLast?).map PermitDocument.versionGroupId) = some none) :=
  ⟨by decide, by decide, by decide, by decide, by decide, by decide, by
    obtain ⟨h1, h2, h3, h4⟩ := C5_thm dbDocs "u1" "p1" "plans.pdf" "Plans" "sp" "g1" 3
      permitP1 (by decide) (by decide)
    exact ⟨h1 docChild "grp" (by decide) (by decide) (by decide) (by decide),
      h2 docRoot (by decide) (by decide) (by decide), h3, h4⟩⟩

/-! ### Claim C8 -/

/-- Claim C8, as stated, is false on the code: with `isNewVersion` set and a
`parentDocumentId` that resolves to no document, the handler performs no
parent-existence check and does not produce a not-found response.  The
version-group computation silently adopts the dangling id itself, and the
attempted insert is rejected only by the store's `parentDocumentId`
foreign key, which the handler's catch block surfaces as the generic 500
upload failure. -/
theorem C8_counterexample :
    findDocument dbNew.documents "ghost" = none ∧
    computeVersionGroupId dbNew.documents true (some "ghost") "g1" = some "ghost" ∧
    (DocumentsRoute.POST dbNew "u1" "p1"
        (uploadForm "plans.pdf" 3 "Plans" true (some "ghost")) (.ok "sp") "g1").1 =
      ApiResp.serverError ∧
    ¬ (DocumentsRoute.POST dbNew "u1" "p1"
        (uploadForm "plans.pdf" 3 "Plans" true (some "ghost")) (.ok "sp") "g1").1 =
      ApiResp.notFound := by
  decide

/-- Claim C8 amended: a dangling `parentDocumentId` on a new-version upload is
not rejected with a not-found response.  The handler silently adopts the
dangling id as the `versionGroupId`; the insert then fails at the store's
self-referencing foreign key and surfaces as the generic 500 upload
failure, leaving the database unchanged. -/
theorem C8_amended_thm (db : DB) (u pid fn cat sp g pd : String) (sz : Nat)
    (P : PermitPackage)
    (hP : findPermit db.permits pid = some P)
    (hcat : documentCategoryEnum.contains cat = true)
    (hpd : pd ≠ "")
    (hdangling : findDocument db.documents pd = none) :
    computeVersionGroupId db.documents true (some pd) g = some pd ∧
    DocumentsRoute.POST db u pid (uploadForm fn sz cat true (some pd)) (.ok sp) g =
      (ApiResp.serverError, db) := by
  have hmem : cat ∈ documentCategoryEnum := by simpa using hcat
  constructor
  · simp [computeVersionGroupId, jsTruthy, hpd, hdangling]
  · simp [DocumentsRoute.POST, hP, hmem, uploadForm, computeVersionGroupId, jsTruthy,
      hpd, hdangling, createDocument]

/-- Claim C8 amended, witnessed concretely: the dangling id `ghost` on `dbNew`. -/
theorem C8_witness :
    findPermit dbNew.permits "p1" = some permitP1 ∧
    documentCategoryEnum.contains "Plans" = true ∧
    findDocument dbNew.documents "ghost" = none ∧
    (computeVersionGroupId dbNew.documents true (some "ghost") "g1" = some "ghost" ∧
    DocumentsRoute.POST dbNew "u1" "p1"
        (uploadForm "plans.pdf" 3 "Plans" true (some "ghost")) (.ok "sp") "g1" =
      (ApiResp.serverError, dbNew)) :=
  ⟨by decide, by decide, by decide,
    C8_amended_thm dbNew "u1" "p1" "plans.pdf" "Plans" "sp" "g1" "ghost" 3 permitP1
      (by decide) (by decide) (by decide) (by decide)⟩

/-! ### Claim C9 -/

/-- Claim C9: when the storage collaborator's `save` fails — which it does for
every payload above `MAX_FILE_SIZE` — the upload handler leaves the entire
database untouched: no `PermitDocument` row and no `DocumentUploaded`
audit entry is created, because the metadata insert and the audit insert
only run after the awaited `save` has succeeded. -/
theorem C9_thm :
    (∀ (db : DB) (u pid g e : String) (form : DocumentUploadForm),
      (DocumentsRoute.POST db u pid form (.error e) g).2 = db ∧
      ¬ (DocumentsRoute.POST db u pid form (.error e) g).1 = ApiResp.created) ∧
    (∀ (sz : Nat) (fn pid ts rnd : String), sz > MAX_FILE_SIZE →
      LocalStorageAdapter.save sz fn pid ts rnd =
        .error "File size exceeds maximum allowed size of 50MB") := by
  constructor
  · intro db u pid g e form
    cases hP : findPermit db.permits pid with
    | none => simp [DocumentsRoute.POST, hP]
    | some P =>
      cases hf : form.file with
      | none => simp [DocumentsRoute.POST, hP, hf]
      | some file =>
        by_cases hc : documentCategoryEnum.contains form.category = true
        · have hmem : form.category ∈ documentCategoryEnum := by simpa using hc
          simp [DocumentsRoute.POST, hP, hf, hmem]
        · have hmem : ¬ form.category ∈ documentCategoryEnum := by
            simpa using hc
          simp [DocumentsRoute.POST, hP, hf, hmem]
  · intro sz fn pid ts rnd h
    simp [LocalStorageAdapter.save, h]

/-- Claim C9, witnessed concretely: an oversize payload (one byte above the 50MB
limit) is refused by the adapter, and a failed save leaves `dbNew`
untouched with no 201 response. -/
theorem C9_witness :
    52428801 > MAX_FILE_SIZE ∧
    ((DocumentsRoute.POST dbNew "u1" "p1" (plainUpload "plans.pdf" 52428801 "Plans")
        (.error "File size exceeds maximum allowed size of 50MB") "g1").2 = dbNew ∧
      ¬ (DocumentsRoute.POST dbNew "u1" "p1" (plainUpload "plans.pdf" 52428801 "Plans")
        (.error "File size exceeds maximum allowed size of 50MB") "g1").1 =
        ApiResp.created) ∧
    LocalStorageAdapter.save 52428801 "plans.pdf" "p1" "1700" "ab" =
      .error "File size exceeds maximum allowed size of 50MB" :=
  ⟨by decide,
    C9_thm.1 dbNew "u1" "p1" "g1" "File size exceeds maximum allowed size of 50MB"
      (plainUpload "plans.pdf" 52428801 "Plans"),
    C9_thm.2 52428801 "plans.pdf" "p1" "1700" "ab" (by decide)⟩

/-! ### Claim C6 -/

/-- Claim C6 names a real property of the intended transition semantics, but the
code breaks it on status-less patches: because the source compares
`validatedData.status !== 'Completed'` and `undefined !== 'Completed'` is
true, a patch touching only `dueDate` on a task already `Completed` falls
into the clearing branch and sets `completedAt` to null even though the
status did not transition out of `Completed`. -/
theorem C6_bug :
    taskReview.status = "Completed" ∧
    taskReview.completedAt = some 5 ∧
    ((TasksRoute.PATCH dbTask "u1" "t1"
        { name := none, description := none, status := none, assignedTo := none,
          dueDate := some "2025-06-01T00:00:00Z", priority := none } 99).2.tasks.map
      (fun t => (t.status, t.completedAt, t.dueDate))) =
      [("Completed", none, some "2025-06-01T00:00:00Z")] := by
  decide

/-! ### Claim C7 -/

/-- Claim C7: the document verify operation sets `isVerified` to the supplied
flag and, in the same update, sets `status` to `Verified` when the flag is
true and to `Pending` when it is false, independent of the optional notes
or any other field of the stored document. -/
theorem C7_thm (db : DB) (u docId : String) (D : PermitDocument) (v : Bool)
    (notes : Option String)
    (hD : findDocument db.documents docId = some D) :
    (DocumentVerifyRoute.POST db u docId v notes).1 = ApiResp.ok ∧
    ((findDocument (DocumentVerifyRoute.POST db u docId v notes).2.documents docId).map
      (fun d => (d.isVerified, d.status))) =
      some (v, if v then "Verified" else "Pending") := by
  constructor
  · simp [DocumentVerifyRoute.POST, hD]
  · simp [DocumentVerifyRoute.POST, hD, findDocument_updateDocument]

/-- Claim C7, witnessed concretely: verifying `d1` yields
`(true, "Verified")`, unverifying `d2` yields `(false, "Pending")`. -/
theorem C7_witness :
    findDocument dbDocs.documents "d1" = some docRoot ∧
    findDocument dbDocs.documents "d2" = some docChild ∧
    (((findDocument (DocumentVerifyRoute.POST dbDocs "u1" "d1" true
          (some "looks right")).2.documents "d1").map
        (fun d => (d.isVerified, d.status))) = some (true, "Verified") ∧
      ((findDocument (DocumentVerifyRoute.POST dbDocs "u1" "d2" false
          none).2.documents "d2").map
        (fun d => (d.isVerified, d.status))) = some (false, "Pending")) :=
  ⟨by decide, by decide,
    by
      have h1 := C7_thm dbDocs "u1" "d1" docRoot true (some "looks right") (by decide)
      have h2 := C7_thm dbDocs "u1" "d2" docChild false none (by decide)
      exact ⟨h1.2, h2.2⟩⟩

/-! ### Claim C10 -/

/-- Claim C10 names the intent of the adapter's own comment (ensure the path is
within the storage root), but the implemented check is a string-prefix
test on the resolved path.  A traversal that resolves into a sibling
directory whose absolute path merely begins with the root string — here
`/srv/storagezz` for root `/srv/storage` — passes the check, so `get` and
`delete` proceed to `fs.readFile` / `fs.unlink` on a path outside the
storage root.  (A traversal resolving to a non-prefix location such as
`/etc/passwd` is rejected, which is why the slip is easy to miss.) -/
theorem C10_bug :
    insideDir (resolveAbs "/srv/storage")
      (resolveAbs (pathJoin "/srv/storage" "../storagezz/secret")) = false ∧
    LocalStorageAdapter.get "/srv/storage" "../storagezz/secret" =
      .ok "/srv/storagezz/secret" ∧
    LocalStorageAdapter.delete "/srv/storage" "../storagezz/secret" =
      .ok "/srv/storagezz/secret" ∧
    LocalStorageAdapter.get "/srv/storage" "../../etc/passwd" =
      .error "Invalid file path: outside storage root" := by
  exact ⟨by decide, rfl, rfl, rfl⟩

end PermitPro
